import Mathlib

/-!
Shallow embedding of the event-driven core of the medical-drone voice-agent
webhook server (`voice_agent/webhook_server.py`): the drone dispatcher
(fleet selection, reservation, ETA, tracking code, order ledger), the order
validation routine, the webhook event handler (function-call / tool-calls,
end-of-call-report, speech-update, conversation-update, transcript, other),
the bounded live-transcript window, and the SSE subscriber list.

Python dicts are modelled as insertion-ordered association lists, Python
exceptions as `Except PyErr`, and the nondeterministic inputs of the code
(UUID hex, fresh order ids, wall-clock time) as explicit parameters.
-/

namespace Drone

/-- Python exceptions that the embedded code can raise. -/
inductive PyErr where
  | keyError
  | indexError
  | valueError
  | exception (msg : String)
deriving DecidableEq, Repr

/-- `KeyError`-raising dictionary access: `d[k]` for a required field. -/
def req {α : Type} (o : Option α) : Except PyErr α :=
  match o with
  | some a => Except.ok a
  | none => Except.error PyErr.keyError

/-- Python `str.upper()` (character-wise, which is exact on ASCII). -/
def strUpper (s : String) : String := ⟨s.data.map Char.toUpper⟩

/-- Python slicing `s[:n]`. -/
def strTake (s : String) (n : Nat) : String := ⟨s.data.take n⟩

/-- Python dict assignment `d[k] = v`: updates in place when the key exists
(keeping its position), otherwise appends at the end. -/
def pyDictSet {κ α : Type} [DecidableEq κ] (l : List (κ × α)) (k : κ) (v : α) :
    List (κ × α) :=
  if l.any (fun p => decide (p.1 = k)) then
    l.map (fun p => if p.1 = k then (k, v) else p)
  else l ++ [(k, v)]

/-- Python dict lookup `d.get(k)`. -/
def pyDictGet {κ α : Type} [DecidableEq κ] (l : List (κ × α)) (k : κ) : Option α :=
  (l.find? (fun p => decide (p.1 = k))).map (fun p => p.2)

/-- Python `list.remove(x)`: removes the first occurrence, raises
`ValueError` when the element is absent. -/
def pyListRemove {α : Type} [DecidableEq α] (l : List α) (x : α) :
    Except PyErr (List α) :=
  if x ∈ l then Except.ok (l.erase x) else Except.error PyErr.valueError

/-- One fleet member of the `drone_fleet` dict:
`{"status": ..., "battery": ..., "location": ...}`. -/
structure DroneUnit where
  status : String
  battery : Nat
  location : String
deriving DecidableEq, Repr

/-- The `drone_fleet` global: an insertion-ordered dict keyed by drone id. -/
abbrev Fleet := List (Nat × DroneUnit)

/-- The seed fleet: three available drones with batteries 95, 88, 92. -/
def initial_drone_fleet : Fleet :=
  [(1, ⟨"available", 95, "depot"⟩),
   (2, ⟨"available", 88, "depot"⟩),
   (3, ⟨"available", 92, "depot"⟩)]

/-- One requested-medication record of the order payload. Fields are
`Option` because the payload is caller-submitted JSON: an absent field
raises `KeyError` where the code subscripts it. -/
structure Medication where
  name : Option String := none
  dosage : Option String := none
  quantity : Option Nat := none
  form : Option String := none
deriving DecidableEq, Repr

/-- The caller-submitted order payload (the `order_data` dict). The
delivery location is itself a dict, modelled as an association list so that
Python truthiness (empty dict is falsy) is representable. -/
structure OrderData where
  caller_name : Option String := none
  facility : Option String := none
  department : Option String := none
  urgency : Option String := none
  medications : Option (List Medication) := none
  delivery_location : Option (List (String × String)) := none
deriving DecidableEq, Repr

/-- Python truthiness of the `order_data` dict (non-empty dict is truthy). -/
def OrderData.truthy (od : OrderData) : Bool :=
  od.caller_name.isSome || od.facility.isSome || od.department.isSome ||
  od.urgency.isSome || od.medications.isSome || od.delivery_location.isSome

/-- A ledger record written into `active_orders`. Timestamps are epoch
seconds. `transcript` / `call_duration` are attached later by the
end-of-call-report handler. -/
structure Order where
  order_id : String
  drone_id : Nat
  confirmation_code : String
  timestamp : Nat
  eta : Nat
  status : String
  payload : OrderData
  transcript : Option String := none
  call_duration : Option Nat := none
deriving DecidableEq, Repr

/-- The `active_orders` global dict. -/
abbrev Ledger := List (String × Order)

/-- The result dict returned by `DroneDispatcher.dispatch_mission`. -/
structure DispatchResult where
  order_id : String
  drone_id : Nat
  eta_minutes : Nat
  confirmation_code : String
  status : String
deriving DecidableEq, Repr

/-- Ids of drones that are `available` with battery above 30 — the
`available` list comprehension of `select_optimal_drone`. -/
def eligibleIds (fleet : Fleet) : List Nat :=
  (fleet.filter (fun p => p.2.status = "available" && decide (p.2.battery > 30))).map
    (fun p => p.1)

/-- `drone_fleet[d]["battery"]` for an id known to be in the fleet. -/
def batteryOf (fleet : Fleet) (d : Nat) : Nat :=
  ((fleet.find? (fun p => decide (p.1 = d))).map (fun p => p.2.battery)).getD 0

/-- Python `max(cur :: rest, key=f)`: strict improvement replaces, so the
first maximal element wins. -/
def pyMaxBy (f : Nat → Nat) (cur : Nat) : List Nat → Nat
  | [] => cur
  | x :: xs => pyMaxBy f (if f x > f cur then x else cur) xs

/-- `DroneDispatcher.select_optimal_drone`: among available drones with
battery over 30, STAT picks the highest battery, otherwise the first
available; raises `Exception("No drones available")` when none qualify. -/
def select_optimal_drone (fleet : Fleet) (urgency : String) : Except PyErr Nat :=
  match eligibleIds fleet with
  | [] => Except.error (PyErr.exception "No drones available")
  | d :: ds =>
    if urgency = "STAT" then Except.ok (pyMaxBy (batteryOf fleet) d ds)
    else Except.ok d

/-- `DroneDispatcher.calculate_eta`: static urgency table
`{"STAT": 2, "urgent": 3, "routine": 5}` with default 5, keyed on
`destination.get("urgency", "routine")`. -/
def calculate_eta (destination : OrderData) : Nat :=
  let u := destination.urgency.getD "routine"
  if u = "STAT" then 2 else if u = "urgent" then 3 else 5

/-- `drone_fleet[d]["status"] = s`. -/
def setDroneStatus (fleet : Fleet) (d : Nat) (s : String) : Fleet :=
  fleet.map (fun p => if p.1 = d then (p.1, { p.2 with status := s }) else p)

/-- Status of a drone id in the fleet dict, when present. -/
def statusOf (fleet : Fleet) (d : Nat) : Option String :=
  (pyDictGet fleet d).map (fun u => u.status)

/-- Result of one `dispatch_mission` call: the fleet and ledger after the
call (mutations before an exception persist, Python globals) and either the
returned dict or the exception raised. -/
structure DispatchOutcome where
  fleet : Fleet
  orders : Ledger
  result : Except PyErr DispatchResult

/-- `DroneDispatcher.dispatch_mission`. `hex4` stands for
`uuid.uuid4().hex[:4]` (four lowercase hex chars), `oid` for the fresh
`str(uuid.uuid4())` order id, `now` for `datetime.now()` in epoch seconds.
Field accesses happen in source order: `urgency` first, then (after the
drone is reserved) `facility` for the tracking code, then the ledger write,
then the log block reads `medications` and `department`; a `KeyError`
raised there leaves the drone reserved and the ledger entry written. -/
def dispatch_mission (fleet : Fleet) (orders : Ledger) (od : OrderData)
    (hex4 oid : String) (now : Nat) : DispatchOutcome :=
  match od.urgency with
  | none => ⟨fleet, orders, Except.error PyErr.keyError⟩
  | some urgency =>
    match select_optimal_drone fleet urgency with
    | Except.error e => ⟨fleet, orders, Except.error e⟩
    | Except.ok drone_id =>
      let fleet1 := setDroneStatus fleet drone_id "dispatched"
      let eta_minutes := calculate_eta od
      match od.facility with
      | none => ⟨fleet1, orders, Except.error PyErr.keyError⟩
      | some fac =>
        let confirmation_code := strUpper (strTake fac 3) ++ "-" ++ strUpper hex4
        let order : Order :=
          { order_id := oid, drone_id := drone_id,
            confirmation_code := confirmation_code,
            timestamp := now, eta := now + eta_minutes * 60,
            status := "dispatched", payload := od }
        let orders1 := pyDictSet orders oid order
        match od.medications, od.department with
        | some _, some _ =>
          ⟨fleet1, orders1,
            Except.ok ⟨oid, drone_id, eta_minutes, confirmation_code, "dispatched"⟩⟩
        | _, _ => ⟨fleet1, orders1, Except.error PyErr.keyError⟩

/-- Lowercase hexadecimal digit (the alphabet of `uuid4().hex`). -/
def isLowerHex (c : Char) : Bool :=
  decide (c = '0' ∨ c = '1' ∨ c = '2' ∨ c = '3' ∨ c = '4' ∨ c = '5' ∨ c = '6' ∨ c = '7' ∨
    c = '8' ∨ c = '9' ∨ c = 'a' ∨ c = 'b' ∨ c = 'c' ∨ c = 'd' ∨ c = 'e' ∨ c = 'f')

/-- Uppercase hexadecimal digit (the alphabet of the pattern `[0-9A-F]`). -/
def isUpperHex (c : Char) : Bool :=
  decide (c = '0' ∨ c = '1' ∨ c = '2' ∨ c = '3' ∨ c = '4' ∨ c = '5' ∨ c = '6' ∨ c = '7' ∨
    c = '8' ∨ c = '9' ∨ c = 'A' ∨ c = 'B' ∨ c = 'C' ∨ c = 'D' ∨ c = 'E' ∨ c = 'F')

/-- One element of an embedded message list (`artifact.messages` or
`conversation`): a dict with optional `role` and `content`. -/
structure ChatMsg where
  role : Option String := none
  content : Option String := none
deriving DecidableEq, Repr

/-- A transcript entry appended to `live_transcript` and broadcast. -/
structure TranscriptEntry where
  speaker : String
  text : String
  time : String
  role : String
deriving DecidableEq, Repr

/-- `deque(maxlen=cap)` append: evict from the front once over capacity. -/
def dequeAppend {α : Type} (cap : Nat) (q : List α) (x : α) : List α :=
  let q1 := q ++ [x]
  if cap < q1.length then q1.drop (q1.length - cap) else q1

/-- JSON rendering of a transcript entry, `json.dumps` with the insertion
order of the Python dict literal. -/
def entryJson (e : TranscriptEntry) : String :=
  "\x7b\x22speaker\x22: \x22" ++ e.speaker ++ "\x22, \x22text\x22: \x22" ++ e.text ++
    "\x22, \x22time\x22: \x22" ++ e.time ++ "\x22, \x22role\x22: \x22" ++ e.role ++ "\x22\x7d"

/-- `broadcast_transcript`: frame the entry and enqueue it on every
connected SSE client queue. -/
def broadcast_transcript (clients : List (List String)) (e : TranscriptEntry) :
    List (List String) :=
  clients.map (fun q => q ++ ["data: " ++ entryJson e ++ "\n\n"])

/-- The `artifact` dict of a speech-update event. -/
structure Artifact where
  messages : Option (List ChatMsg) := none
deriving DecidableEq, Repr

/-- The dict found one level under a new-format tool call, key `function`. -/
structure FuncInner where
  name : Option String := none
  arguments : Option OrderData := none
deriving DecidableEq, Repr

/-- A `functionCall` / `toolCalls[0]` dict, either payload shape. -/
structure FunctionCall where
  name : Option String := none
  parameters : Option OrderData := none
  function : Option FuncInner := none
deriving DecidableEq, Repr

/-- Python truthiness of the function-call dict. -/
def FunctionCall.truthy (fc : FunctionCall) : Bool :=
  fc.name.isSome || fc.parameters.isSome || fc.function.isSome

/-- The `message` object of a webhook envelope: the union of the fields the
handler reads, each optional as in the incoming JSON. -/
structure Message where
  type : Option String := none
  functionCall : Option FunctionCall := none
  toolCalls : Option (List FunctionCall) := none
  role : Option String := none
  status : Option String := none
  artifact : Option Artifact := none
  conversation : Option (List ChatMsg) := none
  transcript : Option String := none
  callId : Option String := none
  durationSeconds : Option Nat := none
deriving DecidableEq, Repr

/-- An inbound webhook envelope `{ "message": {...} }`. -/
structure Envelope where
  message : Option Message := none
deriving DecidableEq, Repr

/-- The in-memory server state: the two global dicts, the bounded
transcript window, and the connected SSE client queues. -/
structure ServerState where
  drone_fleet : Fleet
  active_orders : Ledger
  live_transcript : List TranscriptEntry
  sse_clients : List (List String)
deriving DecidableEq, Repr

/-- The process-start state. -/
def initialState : ServerState := ⟨initial_drone_fleet, [], [], []⟩

/-- The responses the webhook endpoint can produce: a spoken-result
payload `{"result": msg}`, the acknowledgment `{"status": "ok"}`, or an
`HTTPException` raised by the outer exception handler. -/
inductive Response where
  | result (msg : String)
  | ok
  | httpError (code : Nat)
deriving DecidableEq, Repr

/-- Outcome of one webhook call: the state afterwards, the transcript
entries handed to `broadcast_transcript`, and the response. -/
structure WebhookOutcome where
  state : ServerState
  published : List TranscriptEntry
  response : Response
deriving DecidableEq, Repr

/-- `data["message"].get("functionCall") or data["message"].get("toolCalls", [{}])[0]`:
the old singular shape wins when truthy; otherwise index 0 of the list,
which raises `IndexError` when `toolCalls` is present but empty and is the
falsy empty dict when `toolCalls` is absent. -/
def extractFunctionCall (m : Message) : Except PyErr FunctionCall :=
  let orBranch : Except PyErr FunctionCall :=
    match m.toolCalls with
    | none => Except.ok {}
    | some [] => Except.error PyErr.indexError
    | some (fc :: _) => Except.ok fc
  match m.functionCall with
  | some fc => if fc.truthy then Except.ok fc else orBranch
  | none => orBranch

/-- Python `a or b` on optional strings (the empty string is falsy). -/
def strOr (a b : Option String) : Option String :=
  match a with
  | some s => if s = "" then b else some s
  | none => b

/-- `function_call.get("function", {}).get("name") or function_call.get("name")`,
guarded by `if function_call:`. -/
def functionName (fc : FunctionCall) : Option String :=
  if fc.truthy then strOr ((fc.function.getD {}).name) fc.name else none

/-- `function_call.get("parameters") or function_call.get("function", {}).get("arguments", {})`. -/
def extractOrderData (fc : FunctionCall) : OrderData :=
  match fc.parameters with
  | some od =>
    if od.truthy then od else ((fc.function.getD {}).arguments).getD {}
  | none => ((fc.function.getD {}).arguments).getD {}

/-- The per-medication field accesses of the order log block
(`med['name']`, `med['dosage']`, `med['quantity']`, `med['form']`). -/
def printMeds : List Medication → Except PyErr Unit
  | [] => Except.ok ()
  | med :: rest => do
    let _ ← req med.name
    let _ ← req med.dosage
    let _ ← req med.quantity
    let _ ← req med.form
    printMeds rest

/-- The "ORDER RECEIVED" log block that runs before validation: it
subscripts `caller_name`, `facility`, `department`, `urgency`, iterates
`medications`, and reads `delivery_location`; any absent key raises
`KeyError` here, before `validate_order` is ever reached. -/
def printOrder (od : OrderData) : Except PyErr Unit := do
  let _ ← req od.caller_name
  let _ ← req od.facility
  let _ ← req od.department
  let _ ← req od.urgency
  let meds ← req od.medications
  printMeds meds
  let _ ← req od.delivery_location
  Except.ok ()

/-- Result dict of `validate_order`. -/
structure ValidationResult where
  valid : Bool
  reason : String
deriving DecidableEq, Repr

/-- `validate_order`: rejects a falsy (absent or empty) medications list,
then a falsy delivery location, naming the offending field. -/
def validate_order (od : OrderData) : ValidationResult :=
  if (od.medications.getD []).isEmpty then ⟨false, "No medications specified"⟩
  else if (od.delivery_location.getD []).isEmpty then
    ⟨false, "No delivery location specified"⟩
  else ⟨true, ""⟩

/-- Append an entry to the bounded window and broadcast it. -/
def appendAndBroadcast (st : ServerState) (e : TranscriptEntry) : ServerState :=
  { st with live_transcript := dequeAppend 100 st.live_transcript e,
            sse_clients := broadcast_transcript st.sse_clients e }

/-- `"VAPI Agent" if role == "assistant" else "User"`. -/
def speakerFor (role : String) : String :=
  if role = "assistant" then "VAPI Agent" else "User"

/-- Reverse scan of `artifact.messages` for the last message whose role
equals the event's role tag; the empty string when none matches. -/
def lastMsgForRole (msgs : List ChatMsg) (role : String) : String :=
  match msgs.reverse.find? (fun m => m.role = some role) with
  | some m => m.content.getD ""
  | none => ""

/-- Reverse scan of a conversation (argument already reversed): the first
`user`/`assistant` message with non-empty content; empty-content matches do
not stop the scan. -/
def searchConv : List ChatMsg → Option (String × String)
  | [] => none
  | msg :: rest =>
    let role := msg.role.getD ""
    if role = "user" || role = "assistant" then
      let content := msg.content.getD ""
      if content = "" then searchConv rest else some (role, content)
    else searchConv rest

/-- The function-call / tool-calls branch of the webhook handler. An
exception from the tolerant-shape extraction or from the pre-validation
log block escapes to the outer handler as HTTP 500; the dispatch call
itself is wrapped in its own try, whose except returns the generic spoken
apology while keeping the dispatcher's state mutations. -/
def handle_function_call (st : ServerState) (m : Message) (hex4 oid : String)
    (now : Nat) : WebhookOutcome :=
  match extractFunctionCall m with
  | Except.error _ => ⟨st, [], Response.httpError 500⟩
  | Except.ok fc =>
    match functionName fc with
    | some "dispatch_drone" =>
      let od := extractOrderData fc
      match printOrder od with
      | Except.error _ => ⟨st, [], Response.httpError 500⟩
      | Except.ok _ =>
        let v := validate_order od
        if v.valid then
          let out := dispatch_mission st.drone_fleet st.active_orders od hex4 oid now
          let st1 := { st with drone_fleet := out.fleet, active_orders := out.orders }
          match out.result with
          | Except.ok r =>
            ⟨st1, [],
              Response.result ("Order confirmed. Drone Unit " ++ toString r.drone_id ++
                " dispatched. Estimated arrival: " ++ toString r.eta_minutes ++
                " minutes. Your tracking code is " ++ r.confirmation_code ++ ".")⟩
          | Except.error _ =>
            ⟨st1, [],
              Response.result
                "I apologize, but we\x27re experiencing a system issue. Please try again or call our emergency line."⟩
        else
          ⟨st, [],
            Response.result ("Order validation failed: " ++ v.reason ++
              ". Please call back with corrected information.")⟩
    | _ => ⟨st, [], Response.ok⟩

/-- The end-of-call-report branch: find the first active order created
within the last ten minutes that is still `dispatched` and attach the
call transcript and duration to it in place. -/
def handleEndOfCall (st : ServerState) (m : Message) (now : Nat) : ServerState :=
  let tr := m.transcript.getD "No transcript available"
  match (st.active_orders.find?
      (fun p => decide (now - p.2.timestamp < 600) && p.2.status = "dispatched")) with
  | none => st
  | some hit =>
    { st with active_orders := st.active_orders.map (fun p =>
        if p.1 = hit.1 then
          (p.1, { p.2 with transcript := some tr,
                           call_duration := some (m.durationSeconds.getD 0) })
        else p) }

/-- The speech-update branch: act only on `status == "stopped"`, extract
the last message of the event's own role from `artifact.messages`, and
append-and-broadcast it when non-empty. -/
def handle_speech_update (st : ServerState) (m : Message) (timeStr : String) :
    WebhookOutcome :=
  let role := m.role.getD "unknown"
  let status := m.status.getD ""
  if status = "stopped" then
    let msgs := ((m.artifact.getD {}).messages).getD []
    let transcript_msg := lastMsgForRole msgs role
    if transcript_msg = "" then ⟨st, [], Response.ok⟩
    else
      let entry : TranscriptEntry := ⟨speakerFor role, transcript_msg, timeStr, role⟩
      ⟨appendAndBroadcast st entry, [entry], Response.ok⟩
  else ⟨st, [], Response.ok⟩

/-- The conversation-update branch: reverse scan for the last
`user`/`assistant` message with non-empty content; append-and-broadcast. -/
def handle_conversation_update (st : ServerState) (m : Message)
    (timeStr : String) : WebhookOutcome :=
  match m.conversation with
  | none => ⟨st, [], Response.ok⟩
  | some conv =>
    match searchConv conv.reverse with
    | none => ⟨st, [], Response.ok⟩
    | some rc =>
      let entry : TranscriptEntry := ⟨speakerFor rc.1, rc.2, timeStr, rc.1⟩
      ⟨appendAndBroadcast st entry, [entry], Response.ok⟩

/-- `handle_vapi_webhook`: demultiplex on `message.type`. Unrecognized
types are logged and acknowledged with `{"status": "ok"}`; exceptions
inside a branch surface as `HTTPException(500)` from the outer handler
(the embedded branches return `Response.httpError 500` at exactly the
raise points, all of which precede any state mutation). -/
def handle_vapi_webhook (st : ServerState) (data : Envelope) (hex4 oid : String)
    (now : Nat) (timeStr : String) : WebhookOutcome :=
  let m := data.message.getD {}
  if m.type = some "function-call" ∨ m.type = some "tool-calls" then
    handle_function_call st m hex4 oid now
  else if m.type = some "end-of-call-report" then
    ⟨handleEndOfCall st m now, [], Response.ok⟩
  else if m.type = some "speech-update" then
    handle_speech_update st m timeStr
  else if m.type = some "conversation-update" then
    handle_conversation_update st m timeStr
  else if m.type = some "transcript" then
    ⟨st, [], Response.ok⟩
  else
    ⟨st, [], Response.ok⟩

/-- The envelope carried by a voice call that invokes `dispatch_drone`
with the given payload (old `functionCall` wire shape). -/
def dispatchEnvelope (od : OrderData) : Envelope :=
  ⟨some { type := some "function-call",
          functionCall := some { name := some "dispatch_drone", parameters := some od } }⟩

/-- A complete, valid order payload (the `/simulate-order` docstring
example): facility "City General", one medication, urgency STAT. -/
def odC1 : OrderData :=
  { caller_name := some "Dr. Smith", facility := some "City General",
    department := some "Emergency Department", urgency := some "STAT",
    medications := some [{ name := some "Amoxicillin", dosage := some "500mg",
                           quantity := some 20, form := some "tablet" }],
    delivery_location := some [("building", "Main Hospital"), ("floor", "1"),
                               ("specific_area", "ER Bay 3")] }

/-- A pre-existing ledger record, used to probe duplicate-identity writes. -/
def staleOrder : Order :=
  { order_id := "dup", drone_id := 9, confirmation_code := "XXX-0000",
    timestamp := 0, eta := 0, status := "delivered", payload := {} }

/-- The exception `select_optimal_drone` raises when no drone qualifies —
the spec's `NoCapacity` failure. -/
def noCapacity : Except PyErr DispatchResult :=
  Except.error (PyErr.exception "No drones available")

/-- Whether a dispatch result is the `NoCapacity` failure. -/
def isNoCapacity : Except PyErr DispatchResult → Bool
  | Except.error (PyErr.exception m) => m = "No drones available"
  | _ => false

/-- Drone ids of the successful results, in order. -/
def okIds (rs : List (Except PyErr DispatchResult)) : List Nat :=
  rs.filterMap (fun r => match r with
    | Except.ok x => some x.drone_id
    | _ => none)

/-- Final state and per-call results of a batch of dispatch calls. -/
structure MultiOutcome where
  fleet : Fleet
  orders : Ledger
  results : List (Except PyErr DispatchResult)

/-- Run a sequence of `dispatch_mission` calls, each with its own payload,
hex suffix and fresh order id, threading the shared fleet and ledger.
Because `dispatch_mission` contains no `await`, the asyncio event loop
executes each concurrent call atomically, so every concurrent schedule is
one such sequence. -/
def runDispatches (now : Nat) :
    Fleet → Ledger → List (OrderData × String × String) → MultiOutcome
  | fleet, orders, [] => ⟨fleet, orders, []⟩
  | fleet, orders, c :: cs =>
    let out := dispatch_mission fleet orders c.1 c.2.1 c.2.2 now
    let rest := runDispatches now out.fleet out.orders cs
    ⟨rest.fleet, rest.orders, out.result :: rest.results⟩

/-- A payload carries the four fields `dispatch_mission` subscripts. -/
def wfPayload (od : OrderData) : Prop :=
  od.urgency.isSome ∧ od.facility.isSome ∧ od.medications.isSome ∧ od.department.isSome

theorem lowerHex_toUpper {c : Char} (h : isLowerHex c = true) :
    isUpperHex c.toUpper = true := by
  simp only [isLowerHex, decide_eq_true_eq] at h
  rcases h with rfl | rfl | rfl | rfl | rfl | rfl | rfl | rfl | rfl | rfl | rfl | rfl |
    rfl | rfl | rfl | rfl <;> decide

theorem strUpper_data (s : String) : (strUpper s).data = s.data.map Char.toUpper := rfl

theorem pyMaxBy_mem (f : Nat → Nat) : ∀ (l : List Nat) (c : Nat), pyMaxBy f c l ∈ c :: l
  | [], _ => by simp [pyMaxBy]
  | x :: xs, c => by
    have h := pyMaxBy_mem f xs (if f x > f c then x else c)
    simp only [pyMaxBy]
    rcases List.mem_cons.mp h with h1 | h1
    · rw [h1]
      split
      · exact List.mem_cons_of_mem _ (List.mem_cons_self _ _)
      · exact List.mem_cons_self _ _
    · exact List.mem_cons_of_mem _ (List.mem_cons_of_mem _ h1)

theorem select_empty (fleet : Fleet) (u : String) (h : eligibleIds fleet = []) :
    select_optimal_drone fleet u = Except.error (PyErr.exception "No drones available") := by
  simp [select_optimal_drone, h]

theorem select_ok_mem {fleet : Fleet} {u : String} {d : Nat}
    (h : select_optimal_drone fleet u = Except.ok d) : d ∈ eligibleIds fleet := by
  unfold select_optimal_drone at h
  cases heq : eligibleIds fleet with
  | nil => rw [heq] at h; cases h
  | cons e es =>
    rw [heq] at h
    by_cases hs : u = "STAT"
    · simp only [hs, if_pos, Except.ok.injEq] at h
      rw [← h]
      exact pyMaxBy_mem _ _ _
    · simp only [hs, if_false, Except.ok.injEq, if_neg, reduceIte] at h
      rw [← h]
      exact List.mem_cons_self _ _

theorem select_some_of_ne {fleet : Fleet} (u : String) (h : eligibleIds fleet ≠ []) :
    ∃ d, select_optimal_drone fleet u = Except.ok d ∧ d ∈ eligibleIds fleet := by
  cases heq : eligibleIds fleet with
  | nil => exact absurd heq h
  | cons e es =>
    unfold select_optimal_drone
    rw [heq]
    by_cases hs : u = "STAT"
    · refine ⟨pyMaxBy (batteryOf fleet) e es, by simp [hs], ?_⟩
      exact pyMaxBy_mem _ _ _
    · refine ⟨e, by simp [hs], ?_⟩
      exact List.mem_cons_self _ _

theorem pyDictSet_cons_ne {κ α : Type} [DecidableEq κ] (p : κ × α) (t : List (κ × α))
    (k : κ) (v : α) (h : p.1 ≠ k) :
    pyDictSet (p :: t) k v = p :: pyDictSet t k v := by
  simp only [pyDictSet, List.any_cons, h, decide_False, Bool.false_or]
  split
  · simp [h]
  · simp

theorem pyDictGet_cons_ne {κ α : Type} [DecidableEq κ] (p : κ × α) (t : List (κ × α))
    (k : κ) (h : p.1 ≠ k) : pyDictGet (p :: t) k = pyDictGet t k := by
  simp [pyDictGet, List.find?_cons_of_neg, h]

theorem pyDictGet_pyDictSet_self {κ α : Type} [DecidableEq κ] (l : List (κ × α))
    (k : κ) (v : α) : pyDictGet (pyDictSet l k v) k = some v := by
  induction l with
  | nil => simp [pyDictSet, pyDictGet]
  | cons p t ih =>
    by_cases h : p.1 = k
    · have hany : (p :: t).any (fun q => decide (q.1 = k)) = true := by
        simp [List.any_cons, h]
      simp only [pyDictSet, hany, if_true, List.map_cons, h]
      simp [pyDictGet, List.find?_cons]
    · rw [pyDictSet_cons_ne p t k v h, pyDictGet_cons_ne p _ k h]
      exact ih

theorem keys_setDroneStatus (fleet : Fleet) (d : Nat) (s : String) :
    (setDroneStatus fleet d s).map Prod.fst = fleet.map Prod.fst := by
  induction fleet with
  | nil => rfl
  | cons p t ih =>
    show ((if p.1 = d then (p.1, { p.2 with status := s }) else p) ::
        setDroneStatus t d s).map Prod.fst = p.1 :: t.map Prod.fst
    rw [List.map_cons, ih]
    congr 1
    split <;> rfl

theorem pyDictGet_isSome_of_mem {κ α : Type} [DecidableEq κ] {l : List (κ × α)} {k : κ}
    (h : k ∈ l.map Prod.fst) : (pyDictGet l k).isSome := by
  induction l with
  | nil => simp at h
  | cons p t ih =>
    by_cases hp : p.1 = k
    · simp [pyDictGet, List.find?_cons, hp]
    · rw [pyDictGet_cons_ne p t k hp]
      rcases List.mem_cons.mp h with h1 | h1
      · exact absurd h1.symm hp
      · exact ih h1

theorem setDroneStatus_cons (p : Nat × DroneUnit) (t : Fleet) (x : Nat) (s : String) :
    setDroneStatus (p :: t) x s =
      (if p.1 = x then (p.1, { p.2 with status := s }) else p) :: setDroneStatus t x s := rfl

theorem statusOf_cons_ne (p : Nat × DroneUnit) (t : Fleet) (d : Nat) (h : p.1 ≠ d) :
    statusOf (p :: t) d = statusOf t d := by
  simp only [statusOf]
  rw [pyDictGet_cons_ne p t d h]

theorem statusOf_cons_eq (p : Nat × DroneUnit) (t : Fleet) (d : Nat) (h : p.1 = d) :
    statusOf (p :: t) d = some p.2.status := by
  simp [statusOf, pyDictGet, List.find?_cons, h]

theorem statusOf_setDroneStatus (fleet : Fleet) (x d : Nat) (s : String) :
    statusOf (setDroneStatus fleet x s) d =
      if x = d then (statusOf fleet d).map (fun _ => s) else statusOf fleet d := by
  induction fleet with
  | nil =>
    show statusOf [] d = if x = d then (statusOf [] d).map (fun _ => s) else statusOf [] d
    have hnone : statusOf ([] : Fleet) d = none := rfl
    rw [hnone]
    split <;> rfl
  | cons p t ih =>
    rw [setDroneStatus_cons]
    by_cases hx : p.1 = x
    · rw [if_pos hx]
      by_cases hd : x = d
      · have hpd : p.1 = d := hx.trans hd
        rw [statusOf_cons_eq (p.1, { p.2 with status := s }) (setDroneStatus t x s) d hpd,
          statusOf_cons_eq p t d hpd, if_pos hd]
        rfl
      · have hpd : p.1 ≠ d := by rw [hx]; exact hd
        rw [statusOf_cons_ne (p.1, { p.2 with status := s }) (setDroneStatus t x s) d hpd,
          statusOf_cons_ne p t d hpd, if_neg hd]
        have hih := ih
        rw [if_neg hd] at hih
        exact hih
    · rw [if_neg hx]
      by_cases hpd : p.1 = d
      · have hxd : x ≠ d := by intro hc; exact hx (by rw [hc]; exact hpd)
        rw [statusOf_cons_eq p _ d hpd, statusOf_cons_eq p t d hpd, if_neg hxd]
      · rw [statusOf_cons_ne p _ d hpd, statusOf_cons_ne p t d hpd]
        exact ih

theorem eligibleIds_cons (p : Nat × DroneUnit) (t : Fleet) :
    eligibleIds (p :: t) =
      if p.2.status = "available" && decide (p.2.battery > 30) then p.1 :: eligibleIds t
      else eligibleIds t := by
  simp only [eligibleIds, List.filter_cons]
  split <;> simp_all

theorem eligibleIds_sublist (fleet : Fleet) :
    List.Sublist (eligibleIds fleet) (fleet.map Prod.fst) :=
  List.Sublist.map Prod.fst (List.filter_sublist fleet)

theorem eligibleIds_nodup {fleet : Fleet} (h : (fleet.map Prod.fst).Nodup) :
    (eligibleIds fleet).Nodup := h.sublist (eligibleIds_sublist fleet)

theorem mem_keys_of_eligible {fleet : Fleet} {d : Nat} (h : d ∈ eligibleIds fleet) :
    d ∈ fleet.map Prod.fst := (eligibleIds_sublist fleet).subset h

theorem eligibleIds_setDroneStatus_dispatched (fleet : Fleet) (d : Nat) :
    eligibleIds (setDroneStatus fleet d "dispatched") =
      (eligibleIds fleet).filter (fun x => x != d) := by
  induction fleet with
  | nil => rfl
  | cons p t ih =>
    rw [setDroneStatus_cons, eligibleIds_cons, eligibleIds_cons p t]
    by_cases hp : p.1 = d
    · rw [if_pos hp]
      simp only [show ((({ p.2 with status := "dispatched" } : DroneUnit).status = "available")
          && decide (({ p.2 with status := "dispatched" } : DroneUnit).battery > 30)) = false
          from by simp, Bool.false_eq_true, if_false, ih]
      by_cases hc : (p.2.status = "available" && decide (p.2.battery > 30)) = true
      · rw [if_pos hc, List.filter_cons]
        simp [hp]
      · rw [if_neg hc]
    · rw [if_neg hp]
      have hne : (p.1 != d) = true := by simpa using hp
      by_cases hc : (p.2.status = "available" && decide (p.2.battery > 30)) = true
      · rw [if_pos hc, if_pos hc, List.filter_cons]
        simp [ih, hne]
      · rw [if_neg hc, if_neg hc, ih]

theorem statusOf_set_self {fleet : Fleet} {d : Nat} (s : String)
    (h : d ∈ fleet.map Prod.fst) :
    statusOf (setDroneStatus fleet d s) d = some s := by
  rw [statusOf_setDroneStatus, if_pos rfl]
  obtain ⟨u, hu⟩ := Option.isSome_iff_exists.mp (pyDictGet_isSome_of_mem h)
  simp [statusOf, hu]

theorem dispatch_noCapacity (fleet : Fleet) (orders : Ledger) (od : OrderData)
    (hex4 oid : String) (now : Nat) (hu : od.urgency.isSome)
    (he : eligibleIds fleet = []) :
    dispatch_mission fleet orders od hex4 oid now = ⟨fleet, orders, noCapacity⟩ := by
  obtain ⟨u, hu1⟩ := Option.isSome_iff_exists.mp hu
  simp only [dispatch_mission, hu1, select_empty fleet u he, noCapacity]

theorem dispatch_reserves (fleet : Fleet) (orders : Ledger) (od : OrderData)
    (hex4 oid : String) (now : Nat) (hwf : wfPayload od)
    (he : eligibleIds fleet ≠ []) :
    ∃ d r, d ∈ eligibleIds fleet ∧
      (dispatch_mission fleet orders od hex4 oid now).fleet =
        setDroneStatus fleet d "dispatched" ∧
      (dispatch_mission fleet orders od hex4 oid now).result = Except.ok r ∧
      r.drone_id = d := by
  obtain ⟨hu, hf, hm, hd⟩ := hwf
  obtain ⟨u, hu1⟩ := Option.isSome_iff_exists.mp hu
  obtain ⟨f, hf1⟩ := Option.isSome_iff_exists.mp hf
  obtain ⟨ms, hm1⟩ := Option.isSome_iff_exists.mp hm
  obtain ⟨dp, hd1⟩ := Option.isSome_iff_exists.mp hd
  obtain ⟨d, hsel, hmem⟩ := select_some_of_ne u he
  refine ⟨d, ⟨oid, d, calculate_eta od,
    strUpper (strTake f 3) ++ "-" ++ strUpper hex4, "dispatched"⟩, hmem, ?_, ?_, rfl⟩ <;>
    simp [dispatch_mission, hu1, hsel, hf1, hm1, hd1]

theorem dispatch_fleet_shape (fleet : Fleet) (orders : Ledger) (od : OrderData)
    (hex4 oid : String) (now : Nat) :
    (dispatch_mission fleet orders od hex4 oid now).fleet = fleet ∨
    ∃ d, d ∈ eligibleIds fleet ∧
      (dispatch_mission fleet orders od hex4 oid now).fleet =
        setDroneStatus fleet d "dispatched" := by
  cases hu : od.urgency with
  | none => left; simp [dispatch_mission, hu]
  | some u =>
    cases hsel : select_optimal_drone fleet u with
    | error e => left; simp [dispatch_mission, hu, hsel]
    | ok d =>
      right
      refine ⟨d, select_ok_mem hsel, ?_⟩
      cases hf : od.facility with
      | none => simp [dispatch_mission, hu, hsel, hf]
      | some f =>
        cases hm : od.medications with
        | none => cases hd : od.department <;> simp [dispatch_mission, hu, hsel, hf, hm, hd]
        | some ms => cases hd : od.department <;> simp [dispatch_mission, hu, hsel, hf, hm, hd]

theorem runDispatches_preserves_dispatched (now : Nat) :
    ∀ (cs : List (OrderData × String × String)) (fleet : Fleet) (orders : Ledger)
      (d : Nat), statusOf fleet d = some "dispatched" →
      statusOf (runDispatches now fleet orders cs).fleet d = some "dispatched"
  | [], _, _, _, h => h
  | c :: cs, fleet, orders, d, h => by
    simp only [runDispatches]
    apply runDispatches_preserves_dispatched now cs
    rcases dispatch_fleet_shape fleet orders c.1 c.2.1 c.2.2 now with hf | ⟨x, _, hf⟩
    · rw [hf]; exact h
    · rw [hf, statusOf_setDroneStatus]
      split
      · rw [h]; rfl
      · exact h

theorem okIds_cons_ok (x : DispatchResult) (rs : List (Except PyErr DispatchResult)) :
    okIds (Except.ok x :: rs) = x.drone_id :: okIds rs := rfl

theorem okIds_cons_err (e : PyErr) (rs : List (Except PyErr DispatchResult)) :
    okIds (Except.error e :: rs) = okIds rs := rfl

theorem isNoCapacity_ok (x : DispatchResult) : isNoCapacity (Except.ok x) = false := rfl

theorem runDispatches_spec (now : Nat) (cs : List (OrderData × String × String)) :
    ∀ (fleet : Fleet) (orders : Ledger),
      (∀ c ∈ cs, wfPayload c.1) → (fleet.map Prod.fst).Nodup →
      (okIds (runDispatches now fleet orders cs).results).length =
        min cs.length (eligibleIds fleet).length ∧
      (okIds (runDispatches now fleet orders cs).results).Nodup ∧
      (∀ d ∈ okIds (runDispatches now fleet orders cs).results,
        d ∈ eligibleIds fleet ∧
        statusOf (runDispatches now fleet orders cs).fleet d = some "dispatched") ∧
      (runDispatches now fleet orders cs).results.length = cs.length ∧
      (∀ r ∈ (runDispatches now fleet orders cs).results,
        (∃ x, r = Except.ok x) ∨ r = noCapacity) ∧
      ((runDispatches now fleet orders cs).results.filter isNoCapacity).length =
        cs.length - min cs.length (eligibleIds fleet).length := by
  induction cs with
  | nil =>
    intro fleet orders _ _
    simp [runDispatches, okIds]
  | cons c cs ih =>
    intro fleet orders hwf hn
    have hwfc : wfPayload c.1 := hwf c (List.mem_cons_self _ _)
    have hwfcs : ∀ x ∈ cs, wfPayload x.1 := fun x hx => hwf x (List.mem_cons_of_mem _ hx)
    by_cases he : eligibleIds fleet = []
    · have hstep := dispatch_noCapacity fleet orders c.1 c.2.1 c.2.2 now hwfc.1 he
      obtain ⟨ih1, ih2, ih3, ih4, ih5, ih6⟩ := ih fleet orders hwfcs hn
      simp only [runDispatches, hstep]
      refine ⟨?_, ?_, ?_, ?_, ?_, ?_⟩
      · simp only [noCapacity, okIds_cons_err, ih1, he, List.length_nil, Nat.min_zero,
          List.length_cons]
      · simp only [noCapacity, okIds_cons_err]
        exact ih2
      · simp only [noCapacity, okIds_cons_err]
        exact ih3
      · simp [ih4]
      · intro r hr
        rcases List.mem_cons.mp hr with h1 | h1
        · exact Or.inr h1
        · exact ih5 r h1
      · have h6 := ih6
        simp only [he, List.length_nil, Nat.min_zero, Nat.sub_zero] at h6 ⊢
        simp [List.filter_cons, isNoCapacity, noCapacity, h6]
    · obtain ⟨d, r, hmem, hfl, hres, hrid⟩ :=
        dispatch_reserves fleet orders c.1 c.2.1 c.2.2 now hwfc he
      have hn1 : (((dispatch_mission fleet orders c.1 c.2.1 c.2.2 now).fleet).map
          Prod.fst).Nodup := by
        rw [hfl, keys_setDroneStatus]; exact hn
      obtain ⟨ih1, ih2, ih3, ih4, ih5, ih6⟩ :=
        ih (dispatch_mission fleet orders c.1 c.2.1 c.2.2 now).fleet
          (dispatch_mission fleet orders c.1 c.2.1 c.2.2 now).orders hwfcs hn1
      have hE1 : eligibleIds (dispatch_mission fleet orders c.1 c.2.1 c.2.2 now).fleet =
          (eligibleIds fleet).filter (fun x => x != d) := by
        rw [hfl, eligibleIds_setDroneStatus_dispatched]
      have hEnodup := eligibleIds_nodup hn
      have hErase : (eligibleIds fleet).filter (fun x => x != d) =
          (eligibleIds fleet).erase d := (hEnodup.erase_eq_filter d).symm
      have hlen1 : (eligibleIds (dispatch_mission fleet orders c.1 c.2.1 c.2.2 now).fleet).length
          = (eligibleIds fleet).length - 1 := by
        rw [hE1, hErase]; exact List.length_erase_of_mem hmem
      have hKpos : 0 < (eligibleIds fleet).length := List.length_pos.mpr he
      have hK : (eligibleIds fleet).length = ((eligibleIds fleet).length - 1) + 1 :=
        (Nat.succ_pred_eq_of_pos hKpos).symm
      simp only [runDispatches]
      refine ⟨?_, ?_, ?_, ?_, ?_, ?_⟩
      · rw [hres, okIds_cons_ok, hrid]
        simp only [List.length_cons]
        rw [ih1, hlen1]
        conv_rhs => rw [hK, Nat.succ_min_succ]
      · rw [hres, okIds_cons_ok, hrid]
        refine List.nodup_cons.mpr ⟨?_, ih2⟩
        intro hd
        have h3 := (ih3 d hd).1
        rw [hE1] at h3
        have hcontra := (List.mem_filter.mp h3).2
        simp at hcontra
      · rw [hres, okIds_cons_ok, hrid]
        intro y hy
        rcases List.mem_cons.mp hy with rfl | hy2
        · refine ⟨hmem, ?_⟩
          apply runDispatches_preserves_dispatched
          rw [hfl]
          exact statusOf_set_self "dispatched" (mem_keys_of_eligible hmem)
        · obtain ⟨hy3, hy4⟩ := ih3 y hy2
          rw [hE1] at hy3
          exact ⟨(List.mem_filter.mp hy3).1, hy4⟩
      · rw [hres]
        simp [ih4]
      · rw [hres]
        intro rr hrr
        rcases List.mem_cons.mp hrr with h1 | h1
        · exact Or.inl ⟨r, h1⟩
        · exact ih5 rr h1
      · rw [hres, List.filter_cons]
        simp only [isNoCapacity_ok, Bool.false_eq_true, if_false, List.length_cons]
        rw [ih6, hlen1]
        conv_rhs => rw [hK, Nat.succ_min_succ, Nat.succ_sub_succ]

/-- Claim C1: for a dispatch payload with facility "City General", a
one-item medication list, urgency "STAT" and a delivery location, against
the seed fleet (three available units with batteries 95, 88, 92),
`dispatch_mission` selects unit 1 — the unit with battery 95 — returns an
estimate of 2 minutes, and mints a tracking code that is `CIT-` followed
by four uppercase hexadecimal characters. -/
theorem c1_stat_dispatch (od : OrderData) (orders : Ledger) (hex4 oid : String)
    (now : Nat)
    (hfac : od.facility = some "City General")
    (hurg : od.urgency = some "STAT")
    (hmed : ∃ m, od.medications = some [m])
    (hdep : od.department.isSome)
    (_hloc : od.delivery_location.isSome)
    (hhex : hex4.data.all isLowerHex = true)
    (hlen : hex4.data.length = 4) :
    ∃ r, (dispatch_mission initial_drone_fleet orders od hex4 oid now).result =
        Except.ok r ∧
      r.drone_id = 1 ∧
      batteryOf initial_drone_fleet 1 = 95 ∧
      r.eta_minutes = 2 ∧
      r.confirmation_code = "CIT-" ++ strUpper hex4 ∧
      (strUpper hex4).data.length = 4 ∧
      (strUpper hex4).data.all isUpperHex = true := by
  obtain ⟨m, hm⟩ := hmed
  obtain ⟨dep, hd⟩ := Option.isSome_iff_exists.mp hdep
  have hsel : select_optimal_drone initial_drone_fleet "STAT" = Except.ok 1 := rfl
  have hstep : (dispatch_mission initial_drone_fleet orders od hex4 oid now).result =
      Except.ok ⟨oid, 1, calculate_eta od,
        strUpper (strTake "City General" 3) ++ "-" ++ strUpper hex4, "dispatched"⟩ := by
    simp [dispatch_mission, hurg, hsel, hfac, hm, hd]
  have heta : calculate_eta od = 2 := by simp [calculate_eta, hurg]
  have hcode : strUpper (strTake "City General" 3) ++ "-" ++ strUpper hex4 =
      "CIT-" ++ strUpper hex4 := rfl
  have hup_len : (strUpper hex4).data.length = 4 := by
    rw [strUpper_data, List.length_map, hlen]
  have hup_all : (strUpper hex4).data.all isUpperHex = true := by
    rw [strUpper_data]
    apply List.all_eq_true.mpr
    intro c hc
    obtain ⟨c0, hc0, hcu⟩ := List.mem_map.mp hc
    rw [← hcu]
    exact lowerHex_toUpper (List.all_eq_true.mp hhex c0 hc0)
  exact ⟨⟨oid, 1, calculate_eta od,
    strUpper (strTake "City General" 3) ++ "-" ++ strUpper hex4, "dispatched"⟩,
    hstep, rfl, rfl, heta, hcode, hup_len, hup_all⟩

theorem c1_witness :
    ∃ r, (dispatch_mission initial_drone_fleet [] odC1 "ab3f" "order-1" 1000).result =
        Except.ok r ∧
      r.drone_id = 1 ∧
      batteryOf initial_drone_fleet 1 = 95 ∧
      r.eta_minutes = 2 ∧
      r.confirmation_code = "CIT-" ++ strUpper "ab3f" ∧
      (strUpper "ab3f").data.length = 4 ∧
      (strUpper "ab3f").data.all isUpperHex = true :=
  c1_stat_dispatch odC1 [] "ab3f" "order-1" 1000 rfl rfl ⟨_, rfl⟩ rfl rfl (by decide) rfl

/-- Claim C2: for every urgency other than "STAT", `select_optimal_drone`
restricted to units that are available with battery above 30 returns the
lowest-identity eligible unit (on any registry whose keys are in ascending
insertion order, as the program's registry always is), and fails with the
`NoCapacity` exception ("No drones available") when no unit is eligible.
Determinism is inherent: the selection is a pure function of the registry
state and the urgency. -/
theorem c2_nonstat_select (fleet : Fleet) (u : String)
    (hsort : fleet.Pairwise (fun a b => a.1 < b.1)) (hu : u ≠ "STAT") :
    (eligibleIds fleet = [] →
      select_optimal_drone fleet u = Except.error (PyErr.exception "No drones available")) ∧
    (∀ d, select_optimal_drone fleet u = Except.ok d →
      d ∈ eligibleIds fleet ∧ ∀ e ∈ eligibleIds fleet, d ≤ e) := by
  have hpw : (eligibleIds fleet).Pairwise (· < ·) :=
    List.pairwise_map.mpr (List.Pairwise.filter _ hsort)
  constructor
  · intro he
    exact select_empty fleet u he
  · intro d hd
    refine ⟨select_ok_mem hd, ?_⟩
    cases heq : eligibleIds fleet with
    | nil =>
      unfold select_optimal_drone at hd
      rw [heq] at hd
      cases hd
    | cons e es =>
      have hdd : d = e := by
        unfold select_optimal_drone at hd
        rw [heq] at hd
        simp [hu] at hd
        exact hd.symm
      subst hdd
      rw [heq] at hpw
      intro x hx
      rcases List.mem_cons.mp hx with rfl | hx2
      · exact le_refl _
      · exact le_of_lt (List.rel_of_pairwise_cons hpw hx2)

theorem c2_witness :
    (eligibleIds initial_drone_fleet = [] →
      select_optimal_drone initial_drone_fleet "routine" =
        Except.error (PyErr.exception "No drones available")) ∧
    (∀ d, select_optimal_drone initial_drone_fleet "routine" = Except.ok d →
      d ∈ eligibleIds initial_drone_fleet ∧
      ∀ e ∈ eligibleIds initial_drone_fleet, d ≤ e) :=
  c2_nonstat_select initial_drone_fleet "routine" (by decide) (by decide)

/-- Claim C5: when dispatch fails after a unit was selected and reserved —
here because the payload lacks the facility field needed to mint the
tracking code — no rollback happens: the call raises, the reserved unit's
status stays "dispatched" (never restored to "available"), and no order is
written to the ledger. -/
theorem c5_no_rollback (fleet : Fleet) (orders : Ledger) (od : OrderData)
    (hex4 oid : String) (now : Nat) (u : String) (d : Nat)
    (hurg : od.urgency = some u)
    (hsel : select_optimal_drone fleet u = Except.ok d)
    (hfac : od.facility = none) :
    (dispatch_mission fleet orders od hex4 oid now).result = Except.error PyErr.keyError ∧
    (dispatch_mission fleet orders od hex4 oid now).fleet =
      setDroneStatus fleet d "dispatched" ∧
    statusOf (dispatch_mission fleet orders od hex4 oid now).fleet d = some "dispatched" ∧
    (dispatch_mission fleet orders od hex4 oid now).orders = orders := by
  have hstep : dispatch_mission fleet orders od hex4 oid now =
      ⟨setDroneStatus fleet d "dispatched", orders, Except.error PyErr.keyError⟩ := by
    simp [dispatch_mission, hurg, hsel, hfac]
  rw [hstep]
  exact ⟨rfl, rfl,
    statusOf_set_self "dispatched" (mem_keys_of_eligible (select_ok_mem hsel)), rfl⟩

theorem c5_witness :
    (dispatch_mission initial_drone_fleet [] { odC1 with facility := none }
        "ab3f" "order-1" 1000).result = Except.error PyErr.keyError ∧
    (dispatch_mission initial_drone_fleet [] { odC1 with facility := none }
        "ab3f" "order-1" 1000).fleet = setDroneStatus initial_drone_fleet 1 "dispatched" ∧
    statusOf (dispatch_mission initial_drone_fleet [] { odC1 with facility := none }
        "ab3f" "order-1" 1000).fleet 1 = some "dispatched" ∧
    (dispatch_mission initial_drone_fleet [] { odC1 with facility := none }
        "ab3f" "order-1" 1000).orders = [] :=
  c5_no_rollback initial_drone_fleet [] { odC1 with facility := none }
    "ab3f" "order-1" 1000 "STAT" 1 rfl rfl rfl

/-- Claim C6 fails on the code: the ledger write `active_orders[order_id] = ...`
performs no duplicate check. Dispatching with an order identity that
already exists in the ledger succeeds (no `DuplicateKey` failure) and
silently overwrites the existing entry. -/
theorem c6_counterexample :
    pyDictGet ([("dup", staleOrder)] : Ledger) "dup" = some staleOrder ∧
    (∃ r, (dispatch_mission initial_drone_fleet [("dup", staleOrder)] odC1
        "ab3f" "dup" 1000).result = Except.ok r) ∧
    pyDictGet (dispatch_mission initial_drone_fleet [("dup", staleOrder)] odC1
        "ab3f" "dup" 1000).orders "dup" ≠ some staleOrder := by
  refine ⟨rfl, ⟨⟨"dup", 1, 2, "CIT-AB3F", "dispatched"⟩, rfl⟩, ?_⟩
  decide

/-- Claim C6 amended: the ledger create never fails on a duplicate
identity. When an order with the same identity already exists, a
successful dispatch silently overwrites the existing ledger entry with the
newly created order. -/
theorem c6_amended (fleet : Fleet) (orders : Ledger) (od : OrderData) (hex4 oid : String)
    (now : Nat) (old : Order) (r : DispatchResult)
    (_hdup : pyDictGet orders oid = some old)
    (hok : (dispatch_mission fleet orders od hex4 oid now).result = Except.ok r) :
    pyDictGet (dispatch_mission fleet orders od hex4 oid now).orders oid =
      some { order_id := oid, drone_id := r.drone_id,
             confirmation_code := r.confirmation_code, timestamp := now,
             eta := now + r.eta_minutes * 60, status := "dispatched",
             payload := od } := by
  cases hu : od.urgency with
  | none => simp [dispatch_mission, hu] at hok
  | some u =>
    cases hsel : select_optimal_drone fleet u with
    | error e => simp [dispatch_mission, hu, hsel] at hok
    | ok d =>
      cases hf : od.facility with
      | none => simp [dispatch_mission, hu, hsel, hf] at hok
      | some f =>
        cases hm : od.medications with
        | none =>
          cases hdp : od.department <;> simp [dispatch_mission, hu, hsel, hf, hm, hdp] at hok
        | some ms =>
          cases hdp : od.department with
          | none => simp [dispatch_mission, hu, hsel, hf, hm, hdp] at hok
          | some dp =>
            simp only [dispatch_mission, hu, hsel, hf, hm, hdp, Except.ok.injEq] at hok ⊢
            subst hok
            simp [pyDictGet_pyDictSet_self]

theorem c6_witness :
    pyDictGet (dispatch_mission initial_drone_fleet [("dup", staleOrder)] odC1
        "ab3f" "dup" 1000).orders "dup" =
      some { order_id := "dup", drone_id := 1, confirmation_code := "CIT-AB3F",
             timestamp := 1000, eta := 1000 + 2 * 60, status := "dispatched",
             payload := odC1 } :=
  c6_amended initial_drone_fleet [("dup", staleOrder)] odC1 "ab3f" "dup" 1000 staleOrder
    ⟨"dup", 1, 2, "CIT-AB3F", "dispatched"⟩ rfl rfl

theorem printOrder_caller_name {od : OrderData} (h : printOrder od = Except.ok ()) :
    od.caller_name.isSome := by
  cases hc : od.caller_name with
  | none => simp [printOrder, req, hc, Bind.bind, Except.bind] at h
  | some c => rfl

/-- Claim C3 fails on the code: a dispatch payload whose medications key
is entirely absent never reaches `validate_order` — the order log block
subscripts `order_data['medications']` first, raising `KeyError`, which
the outer handler turns into HTTP 500. No InvalidOrder message naming the
missing field is produced. -/
theorem c3_counterexample :
    (handle_vapi_webhook initialState
        (dispatchEnvelope { odC1 with medications := none })
        "ab3f" "order-1" 0 "01:00 AM").response = Response.httpError 500 ∧
    ∀ msg, (handle_vapi_webhook initialState
        (dispatchEnvelope { odC1 with medications := none })
        "ab3f" "order-1" 0 "01:00 AM").response ≠ Response.result msg := by
  refine ⟨rfl, fun msg h => ?_⟩
  rw [show (handle_vapi_webhook initialState
      (dispatchEnvelope { odC1 with medications := none })
      "ab3f" "order-1" 0 "01:00 AM").response = Response.httpError 500 from rfl] at h
  exact Response.noConfusion h

/-- Claim C3 amended: for every dispatch payload that survives the
pre-validation log block (all six fields present) but whose item list or
delivery descriptor is empty, the handler fails before any unit is
reserved or order is created, returning the spoken message
"Order validation failed: reason. Please call back with corrected
information." where the reason names the offending field; a payload whose
item list or delivery descriptor is entirely absent instead raises
KeyError in the log block and is answered with HTTP 500. -/
theorem c3_amended (st : ServerState) (od : OrderData) (hex4 oid : String) (now : Nat)
    (ts : String)
    (hprint : printOrder od = Except.ok ())
    (hinvalid : (validate_order od).valid = false) :
    handle_vapi_webhook st (dispatchEnvelope od) hex4 oid now ts =
      ⟨st, [], Response.result ("Order validation failed: " ++
        (validate_order od).reason ++ ". Please call back with corrected information.")⟩ ∧
    ((od.medications.getD []).isEmpty = true →
      (validate_order od).reason = "No medications specified") ∧
    ((od.medications.getD []).isEmpty = false →
      (validate_order od).reason = "No delivery location specified") := by
  have htr : od.truthy = true := by
    have hc := printOrder_caller_name hprint
    simp [OrderData.truthy, hc]
  refine ⟨?_, ?_, ?_⟩
  · have hred : handle_vapi_webhook st (dispatchEnvelope od) hex4 oid now ts =
        handle_function_call st
          { type := some "function-call",
            functionCall := some { name := some "dispatch_drone", parameters := some od } }
          hex4 oid now := rfl
    rw [hred]
    simp [handle_function_call, extractFunctionCall, functionName, extractOrderData,
      FunctionCall.truthy, strOr, htr, hprint, hinvalid]
  · intro hm
    simp [validate_order, hm]
  · intro hm
    by_cases hdel : (od.delivery_location.getD []).isEmpty
    · simp [validate_order, hm, hdel]
    · exfalso
      simp [validate_order, hm, hdel] at hinvalid

theorem c3_witness :
    (handle_vapi_webhook initialState
        (dispatchEnvelope { odC1 with medications := some [] })
        "ab3f" "order-1" 0 "01:00 AM" =
      ⟨initialState, [], Response.result ("Order validation failed: " ++
        (validate_order { odC1 with medications := some [] }).reason ++
        ". Please call back with corrected information.")⟩) ∧
    ((({ odC1 with medications := some [] } : OrderData).medications.getD []).isEmpty = true →
      (validate_order { odC1 with medications := some [] }).reason =
        "No medications specified") ∧
    ((({ odC1 with medications := some [] } : OrderData).medications.getD []).isEmpty = false →
      (validate_order { odC1 with medications := some [] }).reason =
        "No delivery location specified") :=
  c3_amended initialState { odC1 with medications := some [] } "ab3f" "order-1" 0 "01:00 AM"
    rfl rfl

/-- Claim C4 fails on the code: the handler's outer exception handler
re-raises as `HTTPException(500)` instead of acknowledging with success.
A tool-calls envelope whose toolCalls list is present but empty raises
IndexError at `toolCalls[0]` and the caller receives HTTP 500, not the
success acknowledgment. -/
theorem c4_counterexample :
    (handle_vapi_webhook initialState
        ⟨some { type := some "tool-calls", toolCalls := some [] }⟩ "" "" 0 "").response =
      Response.httpError 500 ∧
    (handle_vapi_webhook initialState
        ⟨some { type := some "tool-calls", toolCalls := some [] }⟩ "" "" 0 "").response ≠
      Response.ok :=
  ⟨rfl, by decide⟩

/-- Claim C4 amended: every inbound envelope whose message type is not one
of the six recognized kinds is logged and still acknowledged with the
success response, with no state change and nothing published; but the
boundary can raise: an envelope whose processing throws (such as a
tool-calls event with an empty toolCalls list) is answered with HTTP 500
rather than a success acknowledgment. -/
theorem c4_amended (st : ServerState) (data : Envelope) (hex4 oid : String) (now : Nat)
    (ts : String)
    (h : ∀ t, (data.message.getD {}).type = some t →
      t ∉ (["function-call", "tool-calls", "end-of-call-report", "speech-update",
            "conversation-update", "transcript"] : List String)) :
    handle_vapi_webhook st data hex4 oid now ts = ⟨st, [], Response.ok⟩ := by
  unfold handle_vapi_webhook
  cases ht : (data.message.getD {}).type with
  | none => simp [ht]
  | some t =>
    have hmem := h t ht
    simp only [List.mem_cons, List.not_mem_nil, or_false, not_or] at hmem
    obtain ⟨h1, h2, h3, h4, h5, h6⟩ := hmem
    simp [ht, h1, h2, h3, h4, h5, h6]

theorem c4_witness :
    handle_vapi_webhook initialState ⟨some { type := some "status-update" }⟩ "" "" 0 "" =
      ⟨initialState, [], Response.ok⟩ :=
  c4_amended initialState ⟨some { type := some "status-update" }⟩ "" "" 0 ""
    (by intro t ht; injection ht with h; subst h; decide)

/-- Claim C7: a speech-update event whose status is not "stopped" (for
example "in-progress") leaves the server state — including the transcript
window and every subscriber queue — unchanged, publishes nothing, and is
acknowledged with success. -/
theorem c7_speech_ignored (st : ServerState) (m : Message) (hex4 oid : String)
    (now : Nat) (ts : String)
    (htype : m.type = some "speech-update")
    (hstatus : m.status.getD "" ≠ "stopped") :
    handle_vapi_webhook st ⟨some m⟩ hex4 oid now ts = ⟨st, [], Response.ok⟩ := by
  unfold handle_vapi_webhook
  simp [htype, handle_speech_update, hstatus]

theorem c7_witness :
    handle_vapi_webhook initialState
      ⟨some { type := some "speech-update", role := some "user",
              status := some "in-progress",
              artifact := some ⟨some [⟨some "user", some "hi"⟩]⟩ }⟩ "" "" 0 "01:00 AM" =
      ⟨initialState, [], Response.ok⟩ :=
  c7_speech_ignored initialState
    { type := some "speech-update", role := some "user", status := some "in-progress",
      artifact := some ⟨some [⟨some "user", some "hi"⟩]⟩ } "" "" 0 "01:00 AM"
    rfl (by decide)

/-- Claim C8: a conversation-update event whose message list is
[system, user "A", assistant "B"] appends exactly one entry to the bounded
transcript window — text "B", role "assistant", speaker "VAPI Agent" —
and publishes exactly that entry: the extraction scans the list in
reverse for the first user/assistant entry with non-empty content,
skipping the system message. -/
theorem c8_conversation_snapshot (st : ServerState) (s : String) (hex4 oid : String)
    (now : Nat) (ts : String) :
    handle_vapi_webhook st
      ⟨some { type := some "conversation-update",
              conversation := some [⟨some "system", some s⟩, ⟨some "user", some "A"⟩,
                ⟨some "assistant", some "B"⟩] }⟩ hex4 oid now ts =
      ⟨{ st with
          live_transcript := dequeAppend 100 st.live_transcript
            ⟨"VAPI Agent", "B", ts, "assistant"⟩,
          sse_clients := broadcast_transcript st.sse_clients
            ⟨"VAPI Agent", "B", ts, "assistant"⟩ },
        [⟨"VAPI Agent", "B", ts, "assistant"⟩], Response.ok⟩ := rfl

/-- Claim C9 fails on the code: unsubscribing is not idempotent. The SSE
disconnect path removes the client queue with `sse_clients.remove(queue)`,
and Python `list.remove` raises ValueError when the element is absent:
after removing handle 0 from the one-element registry, removing it a
second time raises. -/
theorem c9_counterexample :
    pyListRemove ([0] : List Nat) 0 = Except.ok [] ∧
    pyListRemove ([] : List Nat) 0 = Except.error PyErr.valueError := by
  constructor <;> rfl

/-- Claim C9 amended: unsubscribing a handle that is registered exactly
once succeeds and removes it; unsubscribing the same handle a second time
raises ValueError — removal is not idempotent. -/
theorem c9_amended (clients : List Nat) (h : Nat) (hcount : clients.count h = 1) :
    ∃ rest, pyListRemove clients h = Except.ok rest ∧
      pyListRemove rest h = Except.error PyErr.valueError := by
  have hmem : h ∈ clients := by
    have hpos : 0 < clients.count h := by omega
    exact List.count_pos_iff.mp hpos
  refine ⟨clients.erase h, ?_, ?_⟩
  · simp only [pyListRemove, if_pos hmem]
  · have hzero : (clients.erase h).count h = 0 := by
      rw [List.count_erase_self, hcount]
    have hnot : h ∉ clients.erase h := List.count_eq_zero.mp hzero
    simp only [pyListRemove, if_neg hnot]

theorem c9_witness :
    ∃ rest, pyListRemove ([7] : List Nat) 7 = Except.ok rest ∧
      pyListRemove rest 7 = Except.error PyErr.valueError :=
  c9_amended [7] 7 (by decide)

/-- Claim C10: running N dispatch calls with well-formed payloads against
a shared registry holding K eligible units, K < N, yields exactly K
successes reserving K pairwise-distinct units (each left in status
"dispatched"), while the remaining N−K calls fail with the NoCapacity
exception; no unit is ever double-reserved. `dispatch_mission` performs no
await between selection and reservation, so the asyncio event loop runs
each concurrent call atomically and every concurrent schedule is one such
sequence of calls. -/
theorem c10_concurrent_dispatch (now : Nat) (cs : List (OrderData × String × String))
    (fleet : Fleet) (orders : Ledger)
    (hwf : ∀ c ∈ cs, wfPayload c.1)
    (hn : (fleet.map Prod.fst).Nodup)
    (hK : (eligibleIds fleet).length < cs.length) :
    (okIds (runDispatches now fleet orders cs).results).length =
      (eligibleIds fleet).length ∧
    (okIds (runDispatches now fleet orders cs).results).Nodup ∧
    (∀ d ∈ okIds (runDispatches now fleet orders cs).results,
      statusOf (runDispatches now fleet orders cs).fleet d = some "dispatched") ∧
    (∀ r ∈ (runDispatches now fleet orders cs).results,
      (∃ x, r = Except.ok x) ∨ r = noCapacity) ∧
    ((runDispatches now fleet orders cs).results.filter isNoCapacity).length =
      cs.length - (eligibleIds fleet).length := by
  obtain ⟨h1, h2, h3, _, h5, h6⟩ := runDispatches_spec now cs fleet orders hwf hn
  have hmin : min cs.length (eligibleIds fleet).length = (eligibleIds fleet).length :=
    Nat.min_eq_right (Nat.le_of_lt hK)
  rw [hmin] at h1 h6
  exact ⟨h1, h2, fun d hd => (h3 d hd).2, h5, h6⟩

theorem c10_witness :
    (okIds (runDispatches 1000 initial_drone_fleet []
        [(odC1, "ab3f", "o1"), (odC1, "ab3f", "o2"), (odC1, "ab3f", "o3"),
         (odC1, "ab3f", "o4")]).results).length = (eligibleIds initial_drone_fleet).length ∧
    (okIds (runDispatches 1000 initial_drone_fleet []
        [(odC1, "ab3f", "o1"), (odC1, "ab3f", "o2"), (odC1, "ab3f", "o3"),
         (odC1, "ab3f", "o4")]).results).Nodup ∧
    (∀ d ∈ okIds (runDispatches 1000 initial_drone_fleet []
        [(odC1, "ab3f", "o1"), (odC1, "ab3f", "o2"), (odC1, "ab3f", "o3"),
         (odC1, "ab3f", "o4")]).results,
      statusOf (runDispatches 1000 initial_drone_fleet []
        [(odC1, "ab3f", "o1"), (odC1, "ab3f", "o2"), (odC1, "ab3f", "o3"),
         (odC1, "ab3f", "o4")]).fleet d = some "dispatched") ∧
    (∀ r ∈ (runDispatches 1000 initial_drone_fleet []
        [(odC1, "ab3f", "o1"), (odC1, "ab3f", "o2"), (odC1, "ab3f", "o3"),
         (odC1, "ab3f", "o4")]).results,
      (∃ x, r = Except.ok x) ∨ r = noCapacity) ∧
    ((runDispatches 1000 initial_drone_fleet []
        [(odC1, "ab3f", "o1"), (odC1, "ab3f", "o2"), (odC1, "ab3f", "o3"),
         (odC1, "ab3f", "o4")]).results.filter isNoCapacity).length =
      ([(odC1, "ab3f", "o1"), (odC1, "ab3f", "o2"), (odC1, "ab3f", "o3"),
        (odC1, "ab3f", "o4")] : List (OrderData × String × String)).length -
        (eligibleIds initial_drone_fleet).length :=
  c10_concurrent_dispatch 1000
    [(odC1, "ab3f", "o1"), (odC1, "ab3f", "o2"), (odC1, "ab3f", "o3"), (odC1, "ab3f", "o4")]
    initial_drone_fleet []
    (by
      intro c hc
      have hcs : c = (odC1, "ab3f", "o1") ∨ c = (odC1, "ab3f", "o2") ∨
          c = (odC1, "ab3f", "o3") ∨ c = (odC1, "ab3f", "o4") := by simpa using hc
      rcases hcs with rfl | rfl | rfl | rfl <;> exact ⟨rfl, rfl, rfl, rfl⟩)
    (by decide) (by decide)

end Drone
